import Mathlib

/-!
Shallow embedding of the `media-variant` library: a React utility that
resolves a viewport width into one of five named screen sizes.

The repository contains two near-duplicate providers:
* a legacy variant (in `src/types.ts`, after the module boundary): four
  default thresholds, a local sentinel `MAX_SAFE_INTEGER = 99999`, and a
  context value carrying only `screenSize`;
* a richer variant (in `src/react/MediaContext.tsx`): five default
  thresholds (adding `sm = 640`), the platform sentinel
  `Number.MAX_SAFE_INTEGER = 2^53 - 1`, and a context value carrying
  `screenSize` together with the effective `breakpoints` table.

Widths and thresholds are modelled as `Int` (JS numbers used integrally);
a media query `useMediaQuery {minWidth, maxWidth}` is modelled as the
conjunction of the bounds that are present.
-/

namespace MediaVariant

/-- The five screen-size labels, `export type ScreenSize` in `src/types.ts`. -/
inductive ScreenSize where
  | xxl
  | xl
  | lg
  | md
  | sm
deriving DecidableEq, Fintype, Repr

/-- A record of the five boolean media-query match flags,
the argument type `Record<ScreenSize, boolean>` of `findLargestScreenSizeMatch`. -/
structure MatchFlags where
  xxl : Bool
  xl : Bool
  lg : Bool
  md : Bool
  sm : Bool
deriving DecidableEq, Fintype, Repr

/-- `findLargestScreenSizeMatch` — identical in both source files: a priority
cascade over the flags, `xxl` first, `"sm"` as the fallback.  The `sm` flag is
never consulted. -/
def findLargestScreenSizeMatch (sizes : MatchFlags) : ScreenSize :=
  if sizes.xxl then .xxl
  else if sizes.xl then .xl
  else if sizes.lg then .lg
  else if sizes.md then .md
  else .sm

/-- Projection of the flag named by a label out of a flag record. -/
def flagOf (s : ScreenSize) (f : MatchFlags) : Bool :=
  match s with
  | .xxl => f.xxl
  | .xl => f.xl
  | .lg => f.lg
  | .md => f.md
  | .sm => f.sm

/-- How many of the five flags are set. -/
def trueCount (f : MatchFlags) : Nat :=
  (if f.xxl then 1 else 0) + (if f.xl then 1 else 0) + (if f.lg then 1 else 0)
    + (if f.md then 1 else 0) + (if f.sm then 1 else 0)

/-- The rank of a label in the total order `xxl > xl > lg > md > sm`. -/
def rank : ScreenSize → Nat
  | .sm => 0
  | .md => 1
  | .lg => 2
  | .xl => 3
  | .xxl => 4

/-- A user-supplied overrides record: the provider reads each field through
optional chaining and `||`, so each field may be absent at runtime. -/
structure UserSizes where
  xxl : Option Int := none
  xl : Option Int := none
  lg : Option Int := none
  md : Option Int := none
  sm : Option Int := none
deriving DecidableEq, Repr

/-- JavaScript `v || d` for an optionally-present number `v`: the override is
used only when present and truthy (a number is falsy exactly when it is `0`,
so `0` falls back to the default). -/
def jsOr (v : Option Int) (d : Int) : Int :=
  match v with
  | some x => if x = 0 then d else x
  | none => d

/-- Specification of one resolved threshold: `res` equals the override when
the override is present and truthy (non-zero), and equals the default `d`
when the override is absent or falsy. -/
def ResolvedField (ov : Option Int) (d res : Int) : Prop :=
  (∀ v, ov = some v → v ≠ 0 → res = v) ∧ ((ov = none ∨ ov = some 0) → res = d)

/-- `useMediaQuery` settings: matches iff every bound that is present holds. -/
def mediaQueryMatches (minWidth maxWidth : Option Int) (w : Int) : Bool :=
  (match minWidth with
   | some m => decide (m ≤ w)
   | none => true)
  && (match maxWidth with
      | some m => decide (w ≤ m)
      | none => true)

namespace Legacy

/-- The legacy file's local sentinel: `const MAX_SAFE_INTEGER = 99999`. -/
def MAX_SAFE_INTEGER : Int := 99999

/-- Legacy effective breakpoint table: four thresholds, no `sm`. -/
structure Breakpoints where
  xxl : Int
  xl : Int
  lg : Int
  md : Int
deriving DecidableEq, Repr

/-- The legacy provider's threshold resolution:
`userDefinedSizes?.name || default` with defaults 1536/1280/1024/768. -/
def resolveSizes (userDefinedSizes : Option UserSizes) : Breakpoints :=
  { xxl := jsOr (userDefinedSizes.bind (·.xxl)) 1536
    xl := jsOr (userDefinedSizes.bind (·.xl)) 1280
    lg := jsOr (userDefinedSizes.bind (·.lg)) 1024
    md := jsOr (userDefinedSizes.bind (·.md)) 768 }

/-- The five media-query watches the legacy provider registers, evaluated at
width `w`.  The `sm` watch has only `maxWidth: sizes.md - 1`, no `minWidth`. -/
def watchFlags (sizes : Breakpoints) (w : Int) : MatchFlags :=
  { xxl := mediaQueryMatches (some sizes.xxl) (some MAX_SAFE_INTEGER) w
    xl := mediaQueryMatches (some sizes.xl) (some (sizes.xxl - 1)) w
    lg := mediaQueryMatches (some sizes.lg) (some (sizes.xl - 1)) w
    md := mediaQueryMatches (some sizes.md) (some (sizes.lg - 1)) w
    sm := mediaQueryMatches none (some (sizes.md - 1)) w }

/-- The legacy context value type: only the resolved screen size. -/
structure ScreenSizeContextType where
  screenSize : ScreenSize
deriving DecidableEq, Repr

/-- The legacy context's default value, `createContext({ screenSize: "sm" })`. -/
def contextDefault : ScreenSizeContextType :=
  { screenSize := .sm }

/-- `useScreenSize`: project `screenSize` out of the current context value. -/
def useScreenSize (ctx : ScreenSizeContextType) : ScreenSize :=
  ctx.screenSize

/-- The legacy `ScreenSizeProvider`, as a function of its `sizes` prop and the
current viewport width: resolve the table, evaluate the five watches, cascade. -/
def ScreenSizeProvider (userDefinedSizes : Option UserSizes) (w : Int) :
    ScreenSizeContextType :=
  let sizes := resolveSizes userDefinedSizes
  { screenSize := findLargestScreenSizeMatch (watchFlags sizes w) }

end Legacy

namespace Richer

/-- JavaScript `Number.MAX_SAFE_INTEGER = 2^53 - 1`. -/
def maxSafeInteger : Int := 9007199254740991

/-- Richer effective breakpoint table: all five thresholds. -/
structure Breakpoints where
  xxl : Int
  xl : Int
  lg : Int
  md : Int
  sm : Int
deriving DecidableEq, Repr

/-- The richer file's `defaultSizes` constant. -/
def defaultSizes : Breakpoints :=
  { xxl := 1536, xl := 1280, lg := 1024, md := 768, sm := 640 }

/-- The richer provider's threshold resolution:
`userDefinedSizes?.name || defaultSizes.name` for all five names. -/
def resolveSizes (userDefinedSizes : Option UserSizes) : Breakpoints :=
  { xxl := jsOr (userDefinedSizes.bind (·.xxl)) defaultSizes.xxl
    xl := jsOr (userDefinedSizes.bind (·.xl)) defaultSizes.xl
    lg := jsOr (userDefinedSizes.bind (·.lg)) defaultSizes.lg
    md := jsOr (userDefinedSizes.bind (·.md)) defaultSizes.md
    sm := jsOr (userDefinedSizes.bind (·.sm)) defaultSizes.sm }

/-- The five media-query watches the richer provider registers, evaluated at
width `w`.  As in the legacy variant the `sm` watch has only
`maxWidth: sizes.md - 1`; the resolved `sm` threshold appears in no watch. -/
def watchFlags (sizes : Breakpoints) (w : Int) : MatchFlags :=
  { xxl := mediaQueryMatches (some sizes.xxl) (some maxSafeInteger) w
    xl := mediaQueryMatches (some sizes.xl) (some (sizes.xxl - 1)) w
    lg := mediaQueryMatches (some sizes.lg) (some (sizes.xl - 1)) w
    md := mediaQueryMatches (some sizes.md) (some (sizes.lg - 1)) w
    sm := mediaQueryMatches none (some (sizes.md - 1)) w }

/-- The richer context value type: screen size plus effective breakpoints. -/
structure ScreenSizeContextType where
  screenSize : ScreenSize
  breakpoints : Breakpoints
deriving DecidableEq, Repr

/-- The richer context's default value:
`createContext({ screenSize: "sm", breakpoints: defaultSizes })`. -/
def contextDefault : ScreenSizeContextType :=
  { screenSize := .sm, breakpoints := defaultSizes }

/-- `useScreenSize`: project `screenSize` out of the current context value. -/
def useScreenSize (ctx : ScreenSizeContextType) : ScreenSize :=
  ctx.screenSize

/-- The richer `ScreenSizeProvider`, as a function of its `sizes` prop and the
viewport width: resolve, watch, cascade, and publish the effective table. -/
def ScreenSizeProvider (userDefinedSizes : Option UserSizes) (w : Int) :
    ScreenSizeContextType :=
  let sizes := resolveSizes userDefinedSizes
  { screenSize := findLargestScreenSizeMatch (watchFlags sizes w)
    breakpoints := sizes }

end Richer

/-- C1: for every record of five boolean match flags with exactly one flag
true, `findLargestScreenSizeMatch` returns the label corresponding to that
flag; for the record with all five flags false, it returns `sm`. -/
theorem c1_unique_flag_resolves_to_its_label :
    (∀ f : MatchFlags, trueCount f = 1 →
      flagOf (findLargestScreenSizeMatch f) f = true) ∧
    findLargestScreenSizeMatch ⟨false, false, false, false, false⟩ = .sm := by
  constructor
  · decide
  · rfl

/-- Witness for C1 at the record whose only true flag is `lg`. -/
theorem c1_witness :
    flagOf (findLargestScreenSizeMatch ⟨false, false, true, false, false⟩)
      ⟨false, false, true, false, false⟩ = true :=
  c1_unique_flag_resolves_to_its_label.1 ⟨false, false, true, false, false⟩
    (by decide)

/-- C2: for every flag record in which more than one flag is true,
`findLargestScreenSizeMatch` returns the largest-ranked true flag under
`xxl > xl > lg > md > sm`: the returned label's flag is true and every true
flag ranks no higher than the returned label. -/
theorem c2_tiebreak_returns_largest_true_flag :
    ∀ f : MatchFlags, 2 ≤ trueCount f →
      flagOf (findLargestScreenSizeMatch f) f = true ∧
      ∀ s : ScreenSize, flagOf s f = true →
        rank s ≤ rank (findLargestScreenSizeMatch f) := by
  decide

/-- Witness for C2 at the record with `lg` and `sm` both true. -/
theorem c2_witness :
    flagOf (findLargestScreenSizeMatch ⟨false, false, true, false, true⟩)
      ⟨false, false, true, false, true⟩ = true ∧
    ∀ s : ScreenSize, flagOf s ⟨false, false, true, false, true⟩ = true →
      rank s ≤ rank (findLargestScreenSizeMatch ⟨false, false, true, false, true⟩) :=
  c2_tiebreak_returns_largest_true_flag ⟨false, false, true, false, true⟩
    (by decide)

/-- C3 counterexample: in the richer variant with default sizes
(`sm = 640`, `md = 768`), width 100 lies below the claimed `sm` lower bound
`sizes.sm`, yet the `sm` watch matches it — the richer variant's `sm` watch
has no `minWidth`, so the `sm` range does not start at the `sm` threshold. -/
theorem c3_counterexample :
    (Richer.watchFlags (Richer.resolveSizes none) 100).sm = true ∧
    ¬ ((Richer.resolveSizes none).sm ≤ (100 : Int)) := by
  decide

/-- C3 (amended): for every resolved table and every non-negative width, the
five watches are: `xxl` ∈ [xxl, UNBOUNDED_MAX], `xl` ∈ [xl, xxl−1],
`lg` ∈ [lg, xl−1], `md` ∈ [md, lg−1], and `sm` ∈ [0, md−1] in BOTH variants
(the `sm` watch has no lower bound; the resolved `sm` threshold is used in no
watch), with UNBOUNDED_MAX = 99999 in the legacy variant and the platform's
maximum safe integer in the richer variant. -/
theorem c3_range_construction (sA : Legacy.Breakpoints) (sB : Richer.Breakpoints)
    (w : Int) (hw : 0 ≤ w) :
    ((Legacy.watchFlags sA w).xxl = true ↔ sA.xxl ≤ w ∧ w ≤ 99999) ∧
    ((Legacy.watchFlags sA w).xl = true ↔ sA.xl ≤ w ∧ w ≤ sA.xxl - 1) ∧
    ((Legacy.watchFlags sA w).lg = true ↔ sA.lg ≤ w ∧ w ≤ sA.xl - 1) ∧
    ((Legacy.watchFlags sA w).md = true ↔ sA.md ≤ w ∧ w ≤ sA.lg - 1) ∧
    ((Legacy.watchFlags sA w).sm = true ↔ 0 ≤ w ∧ w ≤ sA.md - 1) ∧
    ((Richer.watchFlags sB w).xxl = true ↔ sB.xxl ≤ w ∧ w ≤ 9007199254740991) ∧
    ((Richer.watchFlags sB w).xl = true ↔ sB.xl ≤ w ∧ w ≤ sB.xxl - 1) ∧
    ((Richer.watchFlags sB w).lg = true ↔ sB.lg ≤ w ∧ w ≤ sB.xl - 1) ∧
    ((Richer.watchFlags sB w).md = true ↔ sB.md ≤ w ∧ w ≤ sB.lg - 1) ∧
    ((Richer.watchFlags sB w).sm = true ↔ 0 ≤ w ∧ w ≤ sB.md - 1) := by
  simp only [Legacy.watchFlags, Richer.watchFlags, mediaQueryMatches,
    Legacy.MAX_SAFE_INTEGER, Richer.maxSafeInteger, Bool.and_eq_true,
    decide_eq_true_eq, Bool.true_and, true_and]
  omega

/-- Witness for C3 (amended) at the default tables and width 700. -/
theorem c3_range_construction_witness :
    ((Legacy.watchFlags (Legacy.resolveSizes none) 700).md = true ↔
      (Legacy.resolveSizes none).md ≤ (700 : Int) ∧
      (700 : Int) ≤ (Legacy.resolveSizes none).lg - 1) ∧
    ((Richer.watchFlags (Richer.resolveSizes none) 700).sm = true ↔
      (0 : Int) ≤ 700 ∧ (700 : Int) ≤ (Richer.resolveSizes none).md - 1) :=
  ⟨(c3_range_construction (Legacy.resolveSizes none) (Richer.resolveSizes none)
      700 (by decide)).2.2.2.1,
   (c3_range_construction (Legacy.resolveSizes none) (Richer.resolveSizes none)
      700 (by decide)).2.2.2.2.2.2.2.2.2⟩

/-- C7: with no overrides and width 800, both providers publish `md`; with
override `{md: 900}` and width 850, both providers publish `sm` (the `md`
range then starts at 900 and 850 falls to the `sm` fallback). -/
theorem c7_end_to_end_scenarios :
    (Legacy.ScreenSizeProvider none 800).screenSize = .md ∧
    (Richer.ScreenSizeProvider none 800).screenSize = .md ∧
    (Legacy.ScreenSizeProvider
      (some { md := some 900 }) 850).screenSize = .sm ∧
    (Richer.ScreenSizeProvider
      (some { md := some 900 }) 850).screenSize = .sm := by
  decide

/-- C8: in both variants the context's default value has `screenSize = "sm"`,
so the read accessor used outside any provider subtree (where the context
yields its default value) returns `sm` rather than failing. -/
theorem c8_accessor_outside_provider_default_sm :
    Legacy.useScreenSize Legacy.contextDefault = .sm ∧
    Richer.useScreenSize Richer.contextDefault = .sm := by
  exact ⟨rfl, rfl⟩

/-- C9: for every overrides record and width, the richer provider publishes
as `breakpoints` exactly the effective resolved table that its watches are
built from — not the raw overrides; e.g. override `{xl: 1000}` publishes the
defaults for the other four names. -/
theorem c9_published_breakpoints_are_effective_table :
    (∀ (o : Option UserSizes) (w : Int),
      (Richer.ScreenSizeProvider o w).breakpoints = Richer.resolveSizes o ∧
      (Richer.ScreenSizeProvider o w).screenSize =
        findLargestScreenSizeMatch
          (Richer.watchFlags (Richer.resolveSizes o) w)) ∧
    (Richer.ScreenSizeProvider (some { xl := some 1000 }) 500).breakpoints =
      { xxl := 1536, xl := 1000, lg := 1024, md := 768, sm := 640 } := by
  exact ⟨fun o w => ⟨rfl, rfl⟩, by decide⟩

/-- Helper: `jsOr` satisfies the per-field resolution specification. -/
theorem jsOr_resolvedField (ov : Option Int) (d : Int) :
    ResolvedField ov d (jsOr ov d) := by
  refine ⟨?_, ?_⟩
  · rintro v rfl h0
    simp [jsOr, h0]
  · rintro (rfl | rfl) <;> simp [jsOr]

/-- C4: for every optional overrides record, each resolved threshold equals
the override when present and truthy, and the built-in default otherwise
(legacy defaults xxl=1536, xl=1280, lg=1024, md=768; richer additionally
sm=640); in particular an override of `0` silently yields the default. -/
theorem c4_resolution_truthy_override_else_default (o : Option UserSizes) :
    ResolvedField (o.bind (·.xxl)) 1536 ((Legacy.resolveSizes o).xxl) ∧
    ResolvedField (o.bind (·.xl)) 1280 ((Legacy.resolveSizes o).xl) ∧
    ResolvedField (o.bind (·.lg)) 1024 ((Legacy.resolveSizes o).lg) ∧
    ResolvedField (o.bind (·.md)) 768 ((Legacy.resolveSizes o).md) ∧
    ResolvedField (o.bind (·.xxl)) 1536 ((Richer.resolveSizes o).xxl) ∧
    ResolvedField (o.bind (·.xl)) 1280 ((Richer.resolveSizes o).xl) ∧
    ResolvedField (o.bind (·.lg)) 1024 ((Richer.resolveSizes o).lg) ∧
    ResolvedField (o.bind (·.md)) 768 ((Richer.resolveSizes o).md) ∧
    ResolvedField (o.bind (·.sm)) 640 ((Richer.resolveSizes o).sm) :=
  ⟨jsOr_resolvedField _ _, jsOr_resolvedField _ _, jsOr_resolvedField _ _,
   jsOr_resolvedField _ _, jsOr_resolvedField _ _, jsOr_resolvedField _ _,
   jsOr_resolvedField _ _, jsOr_resolvedField _ _, jsOr_resolvedField _ _⟩

/-- Witness for C4: override `{xl: 0}` yields the default 1280 (falsy quirk),
and override `{xl: 1000}` yields 1000, in the richer variant. -/
theorem c4_witness :
    (Richer.resolveSizes (some { xl := some 0 })).xl = 1280 ∧
    (Richer.resolveSizes (some { xl := some 1000 })).xl = 1000 :=
  ⟨(c4_resolution_truthy_override_else_default
      (some { xl := some 0 })).2.2.2.2.2.1.2 (Or.inr rfl),
   (c4_resolution_truthy_override_else_default
      (some { xl := some 1000 })).2.2.2.2.2.1.1 1000 rfl (by decide)⟩

/-- C5: under the precondition md < lg < xl < xxl ≤ UNBOUNDED_MAX, every
integer width in [0, UNBOUNDED_MAX] sets exactly one of the five match flags
(the five ranges are mutually exclusive and width-contiguous), in each
variant with its own sentinel. -/
theorem c5_ranges_partition (sA : Legacy.Breakpoints) (sB : Richer.Breakpoints)
    (wA wB : Int)
    (hA1 : sA.md < sA.lg) (hA2 : sA.lg < sA.xl) (hA3 : sA.xl < sA.xxl)
    (hA4 : sA.xxl ≤ 99999) (hA5 : 0 ≤ wA) (hA6 : wA ≤ 99999)
    (hB1 : sB.md < sB.lg) (hB2 : sB.lg < sB.xl) (hB3 : sB.xl < sB.xxl)
    (hB4 : sB.xxl ≤ 9007199254740991) (hB5 : 0 ≤ wB)
    (hB6 : wB ≤ 9007199254740991) :
    trueCount (Legacy.watchFlags sA wA) = 1 ∧
    trueCount (Richer.watchFlags sB wB) = 1 := by
  constructor <;>
  · simp only [trueCount, Legacy.watchFlags, Richer.watchFlags,
      mediaQueryMatches, Legacy.MAX_SAFE_INTEGER, Richer.maxSafeInteger,
      Bool.and_eq_true, decide_eq_true_eq, Bool.true_and, true_and]
    split_ifs <;> omega

/-- Witness for C5: the default tables at widths 800 (legacy) and 2000
(richer) each set exactly one flag. -/
theorem c5_witness :
    trueCount (Legacy.watchFlags ⟨1536, 1280, 1024, 768⟩ 800) = 1 ∧
    trueCount (Richer.watchFlags ⟨1536, 1280, 1024, 768, 640⟩ 2000) = 1 :=
  c5_ranges_partition ⟨1536, 1280, 1024, 768⟩ ⟨1536, 1280, 1024, 768, 640⟩
    800 2000 (by decide) (by decide) (by decide) (by decide) (by decide)
    (by decide) (by decide) (by decide) (by decide) (by decide) (by decide)
    (by decide)

/-- C6: for every viewport width in [0, 99999] and no overrides, the legacy
and richer providers resolve the same screen size. -/
theorem c6_variants_agree (w : Int) (h0 : 0 ≤ w) (h1 : w ≤ 99999) :
    (Legacy.ScreenSizeProvider none w).screenSize =
      (Richer.ScreenSizeProvider none w).screenSize := by
  have h2 : w ≤ (9007199254740991 : Int) := by omega
  show findLargestScreenSizeMatch
      (Legacy.watchFlags (Legacy.resolveSizes none) w) =
    findLargestScreenSizeMatch
      (Richer.watchFlags (Richer.resolveSizes none) w)
  have hfl : Legacy.watchFlags (Legacy.resolveSizes none) w =
      Richer.watchFlags (Richer.resolveSizes none) w := by
    show Legacy.watchFlags ⟨1536, 1280, 1024, 768⟩ w =
      Richer.watchFlags ⟨1536, 1280, 1024, 768, 640⟩ w
    simp only [Legacy.watchFlags, Richer.watchFlags, mediaQueryMatches,
      Legacy.MAX_SAFE_INTEGER, Richer.maxSafeInteger,
      decide_eq_true h1, decide_eq_true h2]
  rw [hfl]

/-- Witness for C6 at width 800. -/
theorem c6_witness :
    (Legacy.ScreenSizeProvider none 800).screenSize =
      (Richer.ScreenSizeProvider none 800).screenSize :=
  c6_variants_agree 800 (by decide) (by decide)

/-- C10: the resolver never reads the `sm` flag (two flag records agreeing on
the other four flags resolve identically); the richer variant's watches never
read the resolved `sm` threshold; hence two override records differing only
in `sm` publish the same `screenSize` (the `sm` threshold influences only the
published `breakpoints`). -/
theorem c10_sm_flag_noninterference :
    (∀ f g : MatchFlags, f.xxl = g.xxl → f.xl = g.xl → f.lg = g.lg →
      f.md = g.md →
      findLargestScreenSizeMatch f = findLargestScreenSizeMatch g) ∧
    (∀ (s t : Richer.Breakpoints) (w : Int), s.xxl = t.xxl → s.xl = t.xl →
      s.lg = t.lg → s.md = t.md →
      Richer.watchFlags s w = Richer.watchFlags t w) ∧
    (∀ (o o' : UserSizes) (w : Int), o.xxl = o'.xxl → o.xl = o'.xl →
      o.lg = o'.lg → o.md = o'.md →
      (Richer.ScreenSizeProvider (some o) w).screenSize =
        (Richer.ScreenSizeProvider (some o') w).screenSize) := by
  refine ⟨by decide, ?_, ?_⟩
  · rintro ⟨a, b, c, d, e⟩ ⟨a', b', c', d', e'⟩ w h1 h2 h3 h4
    simp only at h1 h2 h3 h4
    subst h1; subst h2; subst h3; subst h4
    rfl
  · rintro ⟨a, b, c, d, e⟩ ⟨a', b', c', d', e'⟩ w h1 h2 h3 h4
    simp only at h1 h2 h3 h4
    subst h1; subst h2; subst h3; subst h4
    rfl

/-- Witness for C10: two override records differing only in `sm` (100 vs 500)
publish the same screen size at width 700, and two flag records differing
only in the `sm` flag resolve identically. -/
theorem c10_witness :
    (Richer.ScreenSizeProvider (some { sm := some 100 }) 700).screenSize =
      (Richer.ScreenSizeProvider (some { sm := some 500 }) 700).screenSize ∧
    findLargestScreenSizeMatch ⟨false, false, false, true, false⟩ =
      findLargestScreenSizeMatch ⟨false, false, false, true, true⟩ :=
  ⟨c10_sm_flag_noninterference.2.2 { sm := some 100 } { sm := some 500 } 700
      rfl rfl rfl rfl,
   c10_sm_flag_noninterference.1 ⟨false, false, false, true, false⟩
      ⟨false, false, false, true, true⟩ rfl rfl rfl rfl⟩

end MediaVariant
